import Mathlib

/-!
Verification of the estimation and lead-qualification engine of the
Revive backend: a shallow embedding of `services/estimator.js`,
`services/scorer.js` (lead scoring) and `services/pricingConfig.js`
(rules store, cache and merge-with-defaults), together with theorems
settling the specification claims.

JavaScript numbers are modelled as rationals (all arithmetic appearing
in the source is addition, multiplication, `Math.min`, `Math.round`,
and comparisons; every concrete value used in a theorem below is
exactly representable as a binary float, so the rational model agrees
with the float semantics on those inputs).  `Math.round` in JavaScript
rounds half toward positive infinity, i.e. `⌊x + 1/2⌋`.
-/

namespace Revive

/-- JavaScript `String.prototype.toLowerCase` (ASCII-faithful). -/
def lowerStr (s : String) : String := String.map Char.toLower s

/-- Does the character list `s` start with `pat`? -/
def headMatch : List Char → List Char → Bool
  | [], _ => true
  | _ :: _, [] => false
  | p :: ps, c :: cs => p == c && headMatch ps cs

/-- Does the character list `s` contain `pat` as a contiguous run? -/
def hasSub (pat s : List Char) : Bool :=
  match s with
  | [] => headMatch pat []
  | _ :: cs => headMatch pat s || hasSub pat cs

/-- JavaScript `String.prototype.includes`: substring containment. -/
def includes (s pat : String) : Bool := hasSub pat.toList s.toList

/-- JavaScript string truthiness: an absent string and the empty string
are falsy; any other string is truthy. -/
def truthyStr (o : Option String) : Option String :=
  match o with
  | some s => if s = "" then none else some s
  | none => none

/-- JavaScript `Math.round`: rounds half toward positive infinity. -/
def jsRound (q : ℚ) : ℤ := ⌊q + 1/2⌋

/-- JS rounding `Math.round(total / 5) * 5` to the nearest multiple of 5. -/
def round5 (q : ℚ) : ℚ := ((jsRound (q / 5) : ℤ) : ℚ) * 5

/-! ## Data model -/

/-- Property size bucket used to select a base price range. -/
inductive Size where
  | small
  | medium
  | large
deriving DecidableEq, Repr

/-- Confidence label on an estimate. -/
inductive Confidence where
  | none
  | low
  | medium
  | high
deriving DecidableEq, Repr

/-- Per-service pricing table: optional per-size `[min, max]` ranges and
a mandatory `default` range (`pricing[size] || pricing.default`). -/
structure ServicePricing where
  small : Option (ℚ × ℚ)
  medium : Option (ℚ × ℚ)
  large : Option (ℚ × ℚ)
  default : ℚ × ℚ
deriving DecidableEq, Repr

/-- Dynamic lookup `pricing[size]`. -/
def ServicePricing.sizeRange (p : ServicePricing) : Size → Option (ℚ × ℚ)
  | Size.small => p.small
  | Size.medium => p.medium
  | Size.large => p.large

/-- The modifier multipliers (`config.MODIFIERS`); `multipleServices`
is a key present in the defaults file that the engine never reads. -/
structure Modifiers where
  firstTimeCleaning : ℚ
  heavilySoiled : ℚ
  difficultAccess : ℚ
  heightWork : ℚ
  multipleServices : ℚ
  urgent : ℚ
deriving DecidableEq, Repr

/-- Section `config.MULTI_SERVICE_DISCOUNT`. -/
structure MultiServiceDiscount where
  threshold : ℚ
  discount : ℚ
deriving DecidableEq, Repr

/-- Section `config.LEAD_SCORING`. -/
structure LeadScoring where
  baseScore : ℚ
  veryHighValueThreshold : ℚ
  veryHighValueBonus : ℚ
  highValueThreshold : ℚ
  highValueBonus : ℚ
  manyServicesBonus : ℚ
  multipleServicesBonus : ℚ
  remindersOptIn : ℚ
  phonePreferred : ℚ
  emailPreferred : ℚ
  commercialProperty : ℚ
  urgentLanguage : ℚ
deriving DecidableEq, Repr

/-- Section `config.QUALIFICATION_THRESHOLDS`. -/
structure QualificationThresholds where
  hot : ℚ
  warm : ℚ
  cold : ℚ
deriving DecidableEq, Repr

/-- Section `config.CONVERSION_FACTORS`. -/
structure ConversionFactors where
  hotLead : ℚ
  warmLead : ℚ
  coldLead : ℚ
  unqualified : ℚ
deriving DecidableEq, Repr

/-- A full rules configuration (the shape returned by `getPricingConfig`).
`SERVICE_PRICING` is an association list modelling the JS object
(first binding wins on lookup). -/
structure PricingConfig where
  SERVICE_PRICING : List (String × ServicePricing)
  MODIFIERS : Modifiers
  MULTI_SERVICE_DISCOUNT : MultiServiceDiscount
  LEAD_SCORING : LeadScoring
  QUALIFICATION_THRESHOLDS : QualificationThresholds
  CONVERSION_FACTORS : ConversionFactors
deriving DecidableEq, Repr

/-- Dynamic property lookup `SERVICE_PRICING[service]`. -/
def lookupSP (service : String) (table : List (String × ServicePricing)) :
    Option ServicePricing :=
  match table.find? (fun p => p.1 == service) with
  | some p => some p.2
  | none => none

/-- The loosely-typed `answers` object.  The five fields the engine reads
are explicit; `otherKeys` counts any further keys present in the object
(they only matter through `Object.keys(answers).length`). -/
structure Answers where
  roughSize : Option String
  propertyType : Option String
  lastCleaned : Option String
  specificDetails : Option String
  accessNotes : Option String
  otherKeys : ℕ
deriving DecidableEq, Repr

/-- The key count `Object.keys(answers).length`. -/
def Answers.keyCount (a : Answers) : ℕ :=
  (if a.roughSize.isSome then 1 else 0) +
  (if a.propertyType.isSome then 1 else 0) +
  (if a.lastCleaned.isSome then 1 else 0) +
  (if a.specificDetails.isSome then 1 else 0) +
  (if a.accessNotes.isSome then 1 else 0) +
  a.otherKeys

/-- A quote submission, as read by the estimator and the scorer. -/
structure Quote where
  services : Option (List String)
  answers : Option Answers
  remindersOk : Option Bool
  preferredContact : Option String
deriving DecidableEq, Repr

/-- Output record of the estimator. -/
structure Estimate where
  min : Option ℚ
  max : Option ℚ
  version : String
  confidence : Confidence
deriving DecidableEq, Repr

/-! ## Estimator (`services/estimator.js`) -/

def ESTIMATION_VERSION : String := "v1.1"

/-- Source function `determineSize(service, answers)`: explicit size hint first, then
property-type inference, defaulting to medium.  The `service` argument
is accepted but unused, as in the source. -/
def determineSize (_service : String) (answers : Option Answers) : Size :=
  match answers with
  | none => Size.medium
  | some a =>
    match truthyStr (a.roughSize.map lowerStr) with
    | some rs =>
      if includes rs "small" || includes rs "compact" then Size.small
      else if includes rs "large" || includes rs "big" then Size.large
      else Size.medium
    | none =>
      match truthyStr (a.propertyType.map lowerStr) with
      | some pt =>
        if includes pt "commercial" || includes pt "business" then Size.large
        else if includes pt "bungalow" || includes pt "flat" ||
                includes pt "apartment" then Size.small
        else if includes pt "detached" then Size.large
        else if includes pt "semi" || includes pt "terrace" then Size.medium
        else Size.medium
      | none => Size.medium

/-- Source function `calculateModifiers(quote, MODIFIERS)`: starts at 1.0 and multiplies
in every modifier whose free-text condition fires; conditions are
independent.  Returns the multiplier and the reasons pushed, in source
order. -/
def calculateModifiers (quote : Quote) (M : Modifiers) : ℚ × List String :=
  match quote.answers with
  | none => (1, [])
  | some a =>
    let lastCleaned := truthyStr (a.lastCleaned.map lowerStr)
    let cond1 :=
      match lastCleaned with
      | some lc => includes lc "never" || includes lc "years"
      | none => false
    let sd := lowerStr (a.specificDetails.getD "")
    let an := lowerStr (a.accessNotes.getD "")
    let cond2 := includes sd "very dirty" || includes sd "heavily soiled" ||
      includes sd "moss" || includes sd "algae" || includes sd "stained"
    let cond3 := includes an "difficult" || includes an "narrow" ||
      includes an "limited access" || includes an "hard to reach"
    let cond4 := includes an "high" || includes an "tall" ||
      includes an "two stor" || includes an "three stor" || includes sd "high"
    let cond5 := includes sd "urgent" || includes sd "asap" ||
      includes sd "as soon as" || includes sd "quickly"
    let f1 := if cond1 then M.firstTimeCleaning else 1
    let f2 := if cond2 then M.heavilySoiled else 1
    let f3 := if cond3 then M.difficultAccess else 1
    let f4 := if cond4 then M.heightWork else 1
    let f5 := if cond5 then M.urgent else 1
    let r1 : List String := if cond1 then ["First time cleaning"] else []
    let r2 : List String := if cond2 then ["Heavily soiled"] else []
    let r3 : List String := if cond3 then ["Difficult access"] else []
    let r4 : List String := if cond4 then ["Height work required"] else []
    let r5 : List String := if cond5 then ["Urgent request"] else []
    (1 * f1 * f2 * f3 * f4 * f5, r1 ++ r2 ++ r3 ++ r4 ++ r5)

/-- The `services.forEach` loop of `calculateEstimate`: accumulates
`(totalMin, totalMax, confidence)` starting from `(0, 0, medium)`.
An unknown service adds the generic 100–300 range and sets confidence
to low; a known one adds its size-bucket range (or `default`). -/
def serviceStep (SP : List (String × ServicePricing))
    (answers : Option Answers) (acc : ℚ × ℚ × Confidence)
    (service : String) : ℚ × ℚ × Confidence :=
  match lookupSP service SP with
  | none => (acc.1 + 100, acc.2.1 + 300, Confidence.low)
  | some pricing =>
    let size := determineSize service answers
    let range := (pricing.sizeRange size).getD pricing.default
    (acc.1 + range.1, acc.2.1 + range.2, acc.2.2)

def serviceFold (SP : List (String × ServicePricing)) (answers : Option Answers)
    (ss : List String) : ℚ × ℚ × Confidence :=
  ss.foldl (serviceStep SP answers) (0, 0, Confidence.medium)

/-- Totals and confidence just before the multi-service discount:
the service fold with both totals multiplied by the modifier multiplier. -/
def preDiscount (cfg : PricingConfig) (quote : Quote) (ss : List String) :
    ℚ × ℚ × Confidence :=
  let base := serviceFold cfg.SERVICE_PRICING quote.answers ss
  let mult := (calculateModifiers quote cfg.MODIFIERS).1
  (base.1 * mult, base.2.1 * mult, base.2.2)

/-- The multi-service discount step: when `services.length >= threshold`,
multiply both totals by `discount` and set confidence to high. -/
def applyDiscount (MSD : MultiServiceDiscount) (n : ℕ)
    (acc : ℚ × ℚ × Confidence) : ℚ × ℚ × Confidence :=
  if (n : ℚ) ≥ MSD.threshold then
    (acc.1 * MSD.discount, acc.2.1 * MSD.discount, Confidence.high)
  else acc

/-- The sparseness test `!answers || Object.keys(answers).length < 5`. -/
def sparseAnswers : Option Answers → Bool
  | none => true
  | some a => a.keyCount < 5

/-- The final confidence adjustment of `calculateEstimate`: sparse
answers force confidence to low. -/
def sparseClamp (answers : Option Answers) (c : Confidence) : Confidence :=
  if sparseAnswers answers then Confidence.low else c

/-- The early-return value when no services were supplied. -/
def noServicesEstimate : Estimate :=
  { min := Option.none, max := Option.none,
    version := ESTIMATION_VERSION, confidence := Confidence.none }

/-- Source function `calculateEstimate(quote)` with the loaded configuration passed
explicitly (the source loads it through `getPricingConfig`, modelled
separately). -/
def calculateEstimate (cfg : PricingConfig) (quote : Quote) : Estimate :=
  match quote.services with
  | none => noServicesEstimate
  | some ss =>
    if ss.isEmpty then noServicesEstimate
    else
      let post := applyDiscount cfg.MULTI_SERVICE_DISCOUNT ss.length
        (preDiscount cfg quote ss)
      { min := some (round5 post.1), max := some (round5 post.2.1),
        version := ESTIMATION_VERSION,
        confidence := sparseClamp quote.answers post.2.2 }

/-! ## Scorer (`services/scorer.js`) -/

/-- Output record of the scorer (`score` is the rounded integer score). -/
structure ScoreResult where
  score : ℤ
  qualification : String
  conversionLikelihood : ℚ
  reasons : List String
deriving DecidableEq, Repr

/-- Financial value scoring (`if (estimate && estimate.max) ...`).
`estimate.max` is truthy only when present and nonzero.  Returns the
bonus added and the reason pushed. -/
def financialBonus (LS : LeadScoring) (estimate : Option Estimate) :
    ℚ × List String :=
  match estimate with
  | none => (0, [])
  | some e =>
    match e.max with
    | none => (0, [])
    | some m =>
      if m ≠ 0 then
        if m ≥ LS.veryHighValueThreshold then
          (LS.veryHighValueBonus, ["High-value job (£" ++ toString m ++ ")"])
        else if m ≥ LS.highValueThreshold then
          (LS.highValueBonus, ["Good-value job (£" ++ toString m ++ ")"])
        else (0, [])
      else (0, [])

/-- Service quantity scoring (3+ many, exactly 2 multiple; exclusive). -/
def serviceCountBonus (LS : LeadScoring) (services : Option (List String)) :
    ℚ × List String :=
  match services with
  | none => (0, [])
  | some ss =>
    if ss.length > 0 then
      if ss.length ≥ 3 then
        (LS.manyServicesBonus,
          ["Multiple services (" ++ toString ss.length ++ ")"])
      else if ss.length ≥ 2 then
        (LS.multipleServicesBonus, ["Two services selected"])
      else (0, [])
    else (0, [])

/-- Reminders opt-in bonus (`remindersOk === true`). -/
def remindersBonus (LS : LeadScoring) (remindersOk : Option Bool) :
    ℚ × List String :=
  if remindersOk = some true then
    (LS.remindersOptIn, ["Opted in to reminders"])
  else (0, [])

/-- Preferred contact method bonus (phone/call beats email; exclusive). -/
def contactBonus (LS : LeadScoring) (preferredContact : Option String) :
    ℚ × List String :=
  match truthyStr preferredContact with
  | none => (0, [])
  | some pc =>
    let method := lowerStr pc
    if includes method "phone" || includes method "call" then
      (LS.phonePreferred, ["Prefers phone contact"])
    else if includes method "email" then
      (LS.emailPreferred, ["Prefers email contact"])
    else (0, [])

/-- Commercial property bonus (`answers && answers.propertyType`). -/
def propertyBonus (LS : LeadScoring) (answers : Option Answers) :
    ℚ × List String :=
  match answers with
  | none => (0, [])
  | some a =>
    match truthyStr a.propertyType with
    | none => (0, [])
    | some pt0 =>
      let pt := lowerStr pt0
      if includes pt "commercial" || includes pt "business" then
        (LS.commercialProperty, ["Commercial property"])
      else (0, [])

/-- Urgency signal bonus on the combined free-text fields. -/
def urgencyBonus (LS : LeadScoring) (answers : Option Answers) :
    ℚ × List String :=
  match answers with
  | none => (0, [])
  | some a =>
    let sd := lowerStr (a.specificDetails.getD "")
    let an := lowerStr (a.accessNotes.getD "")
    let combined := sd ++ " " ++ an
    if includes combined "urgent" || includes combined "asap" ||
        includes combined "as soon as" || includes combined "quickly" ||
        includes combined "immediate" then
      (LS.urgentLanguage, ["Urgent request"])
    else (0, [])

/-- The accumulated (pre-clamp) score and the reasons, in source order:
base score plus the six independent bonus blocks. -/
def scoreSignals (LS : LeadScoring) (quote : Quote)
    (estimate : Option Estimate) : ℚ × List String :=
  let f := financialBonus LS estimate
  let sc := serviceCountBonus LS quote.services
  let rm := remindersBonus LS quote.remindersOk
  let pc := contactBonus LS quote.preferredContact
  let pt := propertyBonus LS quote.answers
  let ur := urgencyBonus LS quote.answers
  (LS.baseScore + f.1 + sc.1 + rm.1 + pc.1 + pt.1 + ur.1,
   f.2 ++ sc.2 ++ rm.2 ++ pc.2 ++ pt.2 ++ ur.2)

/-- The qualification if-chain: descending thresholds compared with `≥`,
first match wins; pairs the tier with its conversion factor. -/
def classify (QT : QualificationThresholds) (CF : ConversionFactors)
    (score : ℚ) : String × ℚ :=
  if score ≥ QT.hot then ("hot", CF.hotLead)
  else if score ≥ QT.warm then ("warm", CF.warmLead)
  else if score ≥ QT.cold then ("cold", CF.coldLead)
  else ("unqualified", CF.unqualified)

/-- Source function `calculateLeadScore(quote, estimate)` with the configuration passed
explicitly.  The accumulated score is capped at 100, classified
unrounded, and rounded only in the returned `score`. -/
def calculateLeadScore (cfg : PricingConfig) (quote : Quote)
    (estimate : Option Estimate) : ScoreResult :=
  let raw := scoreSignals cfg.LEAD_SCORING quote estimate
  let s := min raw.1 100
  let cl := classify cfg.QUALIFICATION_THRESHOLDS cfg.CONVERSION_FACTORS s
  { score := jsRound s, qualification := cl.1,
    conversionLikelihood := cl.2, reasons := raw.2 }

/-- Source predicate `shouldAlertAdmin(score, qualification)`. -/
def shouldAlertAdmin (score : ℚ) (qualification : String) : Bool :=
  qualification == "hot" && decide (85 ≤ score)

/-! ## Rules store and cache (`services/pricingConfig.js`) -/

/-- An error thrown or returned by the storage layer. -/
structure JsError where
  message : String
deriving DecidableEq, Repr

/-- A stored override: every top-level section optional. -/
structure PartialModifiers where
  firstTimeCleaning : Option ℚ
  heavilySoiled : Option ℚ
  difficultAccess : Option ℚ
  heightWork : Option ℚ
  multipleServices : Option ℚ
  urgent : Option ℚ
deriving DecidableEq, Repr

structure PartialMultiServiceDiscount where
  threshold : Option ℚ
  discount : Option ℚ
deriving DecidableEq, Repr

structure PartialLeadScoring where
  baseScore : Option ℚ
  veryHighValueThreshold : Option ℚ
  veryHighValueBonus : Option ℚ
  highValueThreshold : Option ℚ
  highValueBonus : Option ℚ
  manyServicesBonus : Option ℚ
  multipleServicesBonus : Option ℚ
  remindersOptIn : Option ℚ
  phonePreferred : Option ℚ
  emailPreferred : Option ℚ
  commercialProperty : Option ℚ
  urgentLanguage : Option ℚ
deriving DecidableEq, Repr

structure PartialQualificationThresholds where
  hot : Option ℚ
  warm : Option ℚ
  cold : Option ℚ
deriving DecidableEq, Repr

structure PartialConversionFactors where
  hotLead : Option ℚ
  warmLead : Option ℚ
  coldLead : Option ℚ
  unqualified : Option ℚ
deriving DecidableEq, Repr

/-- The shape of the `pricing_config` settings value stored in the
database: any top-level section may be absent. -/
structure PartialConfig where
  SERVICE_PRICING : Option (List (String × ServicePricing))
  MODIFIERS : Option PartialModifiers
  MULTI_SERVICE_DISCOUNT : Option PartialMultiServiceDiscount
  LEAD_SCORING : Option PartialLeadScoring
  QUALIFICATION_THRESHOLDS : Option PartialQualificationThresholds
  CONVERSION_FACTORS : Option PartialConversionFactors
deriving DecidableEq, Repr

/-- Spread merge `{ ...fileDefaults.MODIFIERS, ...(dbConfig.MODIFIERS || {}) }`:
spread merge, override keys winning when present. -/
def mergeModifiers (d : Modifiers) (o : Option PartialModifiers) : Modifiers :=
  match o with
  | none => d
  | some p =>
    { firstTimeCleaning := p.firstTimeCleaning.getD d.firstTimeCleaning,
      heavilySoiled := p.heavilySoiled.getD d.heavilySoiled,
      difficultAccess := p.difficultAccess.getD d.difficultAccess,
      heightWork := p.heightWork.getD d.heightWork,
      multipleServices := p.multipleServices.getD d.multipleServices,
      urgent := p.urgent.getD d.urgent }

def mergeMultiServiceDiscount (d : MultiServiceDiscount)
    (o : Option PartialMultiServiceDiscount) : MultiServiceDiscount :=
  match o with
  | none => d
  | some p =>
    { threshold := p.threshold.getD d.threshold,
      discount := p.discount.getD d.discount }

def mergeLeadScoring (d : LeadScoring) (o : Option PartialLeadScoring) :
    LeadScoring :=
  match o with
  | none => d
  | some p =>
    { baseScore := p.baseScore.getD d.baseScore,
      veryHighValueThreshold :=
        p.veryHighValueThreshold.getD d.veryHighValueThreshold,
      veryHighValueBonus := p.veryHighValueBonus.getD d.veryHighValueBonus,
      highValueThreshold := p.highValueThreshold.getD d.highValueThreshold,
      highValueBonus := p.highValueBonus.getD d.highValueBonus,
      manyServicesBonus := p.manyServicesBonus.getD d.manyServicesBonus,
      multipleServicesBonus :=
        p.multipleServicesBonus.getD d.multipleServicesBonus,
      remindersOptIn := p.remindersOptIn.getD d.remindersOptIn,
      phonePreferred := p.phonePreferred.getD d.phonePreferred,
      emailPreferred := p.emailPreferred.getD d.emailPreferred,
      commercialProperty := p.commercialProperty.getD d.commercialProperty,
      urgentLanguage := p.urgentLanguage.getD d.urgentLanguage }

def mergeQualificationThresholds (d : QualificationThresholds)
    (o : Option PartialQualificationThresholds) : QualificationThresholds :=
  match o with
  | none => d
  | some p =>
    { hot := p.hot.getD d.hot,
      warm := p.warm.getD d.warm,
      cold := p.cold.getD d.cold }

def mergeConversionFactors (d : ConversionFactors)
    (o : Option PartialConversionFactors) : ConversionFactors :=
  match o with
  | none => d
  | some p =>
    { hotLead := p.hotLead.getD d.hotLead,
      warmLead := p.warmLead.getD d.warmLead,
      coldLead := p.coldLead.getD d.coldLead,
      unqualified := p.unqualified.getD d.unqualified }

/-- Source function `mergeWithDefaults(dbConfig)` with the file defaults passed
explicitly.  Note the asymmetry faithful to the source:
`SERVICE_PRICING` is `dbConfig.SERVICE_PRICING || fileDefaults.…`
(whole-section replacement), while the five flat sections are spread
merges (`{ ...default, ...override }`, key by key). -/
def mergeWithDefaults (fd : PricingConfig) (db : PartialConfig) :
    PricingConfig :=
  { SERVICE_PRICING := db.SERVICE_PRICING.getD fd.SERVICE_PRICING,
    MODIFIERS := mergeModifiers fd.MODIFIERS db.MODIFIERS,
    MULTI_SERVICE_DISCOUNT :=
      mergeMultiServiceDiscount fd.MULTI_SERVICE_DISCOUNT
        db.MULTI_SERVICE_DISCOUNT,
    LEAD_SCORING := mergeLeadScoring fd.LEAD_SCORING db.LEAD_SCORING,
    QUALIFICATION_THRESHOLDS :=
      mergeQualificationThresholds fd.QUALIFICATION_THRESHOLDS
        db.QUALIFICATION_THRESHOLDS,
    CONVERSION_FACTORS :=
      mergeConversionFactors fd.CONVERSION_FACTORS db.CONVERSION_FACTORS }

/-- The module state of `pricingConfig.js`: the `settings` row keyed
`pricing_config` (the external store), and the in-memory cache
(`cachedConfig`, `cacheTimestamp`). -/
structure ConfigState where
  db : Option PartialConfig
  cachedConfig : Option PricingConfig
  cacheTimestamp : ℤ
deriving DecidableEq, Repr

/-- Cache lifetime `CACHE_TTL = 5 * 60 * 1000` milliseconds. -/
def CACHE_TTL : ℤ := 5 * 60 * 1000

/-- Outcome of the settings-row read inside `getPricingConfig`:
`ok` means the query returned without error (the row, if any, is the
`db` field of the state); `err` covers both a returned error and a thrown
exception (the `catch` branch). -/
inductive ReadOutcome where
  | ok
  | err
deriving DecidableEq, Repr

/-- The cache-miss load path of `getPricingConfig`: the DB row when the
client is installed and the read succeeds with a value, else file
defaults; either way the result is cached with a fresh timestamp. -/
def getPricingConfigLoad (fd : PricingConfig) (hasClient : Bool) (now : ℤ)
    (read : ReadOutcome) (st : ConfigState) : PricingConfig × ConfigState :=
  if hasClient then
    match read, st.db with
    | ReadOutcome.ok, some v =>
      let cfg := mergeWithDefaults fd v
      (cfg, { st with cachedConfig := some cfg, cacheTimestamp := now })
    | _, _ =>
      (fd, { st with cachedConfig := some fd, cacheTimestamp := now })
  else
    (fd, { st with cachedConfig := some fd, cacheTimestamp := now })

/-- Source function `getPricingConfig()` as a state transformer, where `now` is `Date.now()`;
`hasClient` is whether `setSupabaseClient` installed a client.  Returns
the configuration and the new module state. -/
def getPricingConfig (fd : PricingConfig) (hasClient : Bool) (now : ℤ)
    (read : ReadOutcome) (st : ConfigState) : PricingConfig × ConfigState :=
  match st.cachedConfig with
  | some c =>
    if now - st.cacheTimestamp < CACHE_TTL then (c, st)
    else getPricingConfigLoad fd hasClient now read st
  | none => getPricingConfigLoad fd hasClient now read st

/-- Source function `savePricingConfig(config)`: throws when no client is installed;
upserts the single `pricing_config` row; rethrows the upsert error if
any (`if (error) throw error`) — only then clears the cache.  The
result pairs the thrown-or-returned value with the post-call module
state (`.ok true` models `{ success: true }`). -/
def savePricingConfig (hasClient : Bool) (upsertError : Option JsError)
    (config : PartialConfig) (st : ConfigState) :
    Except JsError Bool × ConfigState :=
  if hasClient then
    match upsertError with
    | some e => (Except.error e, st)
    | none =>
      (Except.ok true,
       { db := some config, cachedConfig := none, cacheTimestamp := 0 })
  else (Except.error { message := "Supabase client not initialised" }, st)

/-- Source function `resetPricingConfig()`: throws when no client is installed; issues
the delete but never inspects its result, so a failed delete leaves the
row in place while the function still clears the cache and returns
`{ success: true }`. -/
def resetPricingConfig (hasClient : Bool) (deleteError : Option JsError)
    (st : ConfigState) : Except JsError Bool × ConfigState :=
  if hasClient then
    (Except.ok true,
     { db := match deleteError with
        | some _ => st.db
        | none => none,
       cachedConfig := none, cacheTimestamp := 0 })
  else (Except.error { message := "Supabase client not initialised" }, st)

/-! ## Concrete configurations used in witnesses and counterexamples -/

/-- The compiled-in defaults of `config/pricing.js` (the pricing
configuration document embedded in the sources), transcribed
value-for-value: eight services with per-size `[min, max]` ranges, the
modifier multipliers written as exact fractions (1.2 = 6/5,
1.15 = 23/20, 1.25 = 5/4, 1.3 = 13/10, 0.9 = 9/10), the threshold-3
multi-service discount 0.9, the lead-scoring weights with base score
50, qualification thresholds 75/50/30, and conversion factors
0.8/0.5/0.25/0.1. -/
def fileDefaults : PricingConfig :=
  { SERVICE_PRICING :=
      [("roof",
        { small := some (150, 250), medium := some (250, 450),
          large := some (450, 750), default := (250, 450) }),
       ("driveway",
        { small := some (100, 180), medium := some (180, 300),
          large := some (300, 500), default := (180, 300) }),
       ("gutter",
        { small := some (80, 120), medium := some (120, 180),
          large := some (180, 280), default := (120, 180) }),
       ("softwash",
        { small := some (200, 350), medium := some (350, 600),
          large := some (600, 1000), default := (350, 600) }),
       ("render",
        { small := some (250, 400), medium := some (400, 700),
          large := some (700, 1200), default := (400, 700) }),
       ("window",
        { small := some (60, 100), medium := some (100, 160),
          large := some (160, 250), default := (100, 160) }),
       ("solar",
        { small := some (100, 150), medium := some (150, 250),
          large := some (250, 400), default := (150, 250) }),
       ("other",
        { small := some (100, 200), medium := some (200, 400),
          large := some (400, 700), default := (200, 400) })],
    MODIFIERS :=
      { firstTimeCleaning := 6/5, heavilySoiled := 23/20,
        difficultAccess := 5/4, heightWork := 13/10,
        multipleServices := 9/10, urgent := 23/20 },
    MULTI_SERVICE_DISCOUNT := { threshold := 3, discount := 9/10 },
    LEAD_SCORING :=
      { baseScore := 50, veryHighValueThreshold := 700,
        veryHighValueBonus := 30, highValueThreshold := 400,
        highValueBonus := 20, manyServicesBonus := 25,
        multipleServicesBonus := 15, remindersOptIn := 10,
        phonePreferred := 10, emailPreferred := 5,
        commercialProperty := 15, urgentLanguage := 10 },
    QUALIFICATION_THRESHOLDS := { hot := 75, warm := 50, cold := 30 },
    CONVERSION_FACTORS :=
      { hotLead := 4/5, warmLead := 1/2, coldLead := 1/4,
        unqualified := 1/10 } }

/-- A stored override whose `SERVICE_PRICING` carries only `"roof"`. -/
def overrideRoofOnly : PartialConfig :=
  { SERVICE_PRICING :=
      some [("roof",
        { small := some (100, 200), medium := some (200, 300),
          large := some (300, 500), default := (200, 300) })],
    MODIFIERS := none, MULTI_SERVICE_DISCOUNT := none,
    LEAD_SCORING := none, QUALIFICATION_THRESHOLDS := none,
    CONVERSION_FACTORS := none }

/-- The module state at process start: no stored override, empty cache. -/
def initialConfigState : ConfigState :=
  { db := none, cachedConfig := none, cacheTimestamp := 0 }

/-- A quote with every field absent. -/
def quoteTrivial : Quote :=
  { services := none, answers := none, remindersOk := none,
    preferredContact := none }

/-! ## Claim theorems -/

/-- Claim C8: for every submission whose services list is absent or empty, the
estimator returns `min = null`, `max = null`, confidence `"none"`,
without failing and — since the result is the same for every
configuration — without consulting the configuration. -/
theorem empty_services_estimate :
    (∀ (cfg : PricingConfig) (ans : Option Answers) (ro : Option Bool)
        (pc : Option String),
      calculateEstimate cfg
        { services := Option.none, answers := ans, remindersOk := ro,
          preferredContact := pc } = noServicesEstimate) ∧
    (∀ (cfg : PricingConfig) (ans : Option Answers) (ro : Option Bool)
        (pc : Option String),
      calculateEstimate cfg
        { services := some [], answers := ans, remindersOk := ro,
          preferredContact := pc } = noServicesEstimate) ∧
    noServicesEstimate =
      { min := Option.none, max := Option.none,
        version := ESTIMATION_VERSION, confidence := Confidence.none } :=
  ⟨fun _ _ _ _ => rfl, fun _ _ _ _ => rfl, rfl⟩

/-- Claim C9: `shouldAlertAdmin(score, qualification)` is true exactly when
the qualification is `"hot"` and the score is at least 85; in
particular it is false at `("hot", 84)`, true at `("hot", 85)`, and
false for non-hot qualifications regardless of score. -/
theorem shouldAlertAdmin_spec :
    (∀ (score : ℚ) (q : String),
      shouldAlertAdmin score q = true ↔ (q = "hot" ∧ 85 ≤ score)) ∧
    shouldAlertAdmin 84 "hot" = false ∧
    shouldAlertAdmin 85 "hot" = true ∧
    shouldAlertAdmin 200 "warm" = false ∧
    shouldAlertAdmin 200 "cold" = false ∧
    shouldAlertAdmin 200 "unqualified" = false := by
  refine ⟨fun score q => ?_, by decide, by decide, by decide, by decide,
    by decide⟩
  simp [shouldAlertAdmin]

/-- Claim C4 (code bug): a failing upsert makes `savePricingConfig` throw with
the error from the store, but `resetPricingConfig` never inspects the result of
its delete — with a failing delete it still returns `{ success: true }`
(and clears the cache), leaving the override row in place, so the
persistence failure is never surfaced to the administrator caller. -/
theorem reset_swallows_persistence_error :
    (∀ (e : JsError) (c : PartialConfig) (st : ConfigState),
      savePricingConfig true (some e) c st = (Except.error e, st)) ∧
    (∀ (e : JsError) (st : ConfigState),
      resetPricingConfig true (some e) st =
        (Except.ok true,
         { db := st.db, cachedConfig := Option.none, cacheTimestamp := 0 })) :=
  ⟨fun _ _ _ => rfl, fun _ _ => rfl⟩

/-- Claim C1 (counterexample): saving an override whose `SERVICE_PRICING`
holds only `"roof"` and loading it back loses the default `"gutter"`
pricing entirely — the merge is not key-by-key inside `servicePricing`. -/
theorem servicePricing_partial_override_drops_defaults :
    lookupSP "gutter" fileDefaults.SERVICE_PRICING ≠ Option.none ∧
    lookupSP "gutter"
      ((getPricingConfig fileDefaults true 0 ReadOutcome.ok
        (savePricingConfig true Option.none overrideRoofOnly
          initialConfigState).2).1).SERVICE_PRICING = Option.none := by
  exact ⟨by decide, by decide⟩

/-- Claim C1 (amended): `save(config)` followed by `load()` returns
`mergeWithDefaults(defaults, config)`, and this merge is key-by-key
within each of `MODIFIERS`, `MULTI_SERVICE_DISCOUNT`, `LEAD_SCORING`,
`QUALIFICATION_THRESHOLDS` and `CONVERSION_FACTORS` (a stored key wins,
a missing key keeps its default), but `SERVICE_PRICING` is taken
wholesale from the override whenever present, falling back to the
default table only when the override has no `SERVICE_PRICING` at all. -/
theorem save_load_roundtrip :
    (∀ (fd : PricingConfig) (c : PartialConfig) (st : ConfigState) (now : ℤ),
      (getPricingConfig fd true now ReadOutcome.ok
        (savePricingConfig true Option.none c st).2).1 =
        mergeWithDefaults fd c) ∧
    (∀ (fd : PricingConfig) (c : PartialConfig),
      (mergeWithDefaults fd c).SERVICE_PRICING =
        c.SERVICE_PRICING.getD fd.SERVICE_PRICING) ∧
    (∀ (d : Modifiers) (p : PartialModifiers),
      mergeModifiers d (some p) =
        { firstTimeCleaning := p.firstTimeCleaning.getD d.firstTimeCleaning,
          heavilySoiled := p.heavilySoiled.getD d.heavilySoiled,
          difficultAccess := p.difficultAccess.getD d.difficultAccess,
          heightWork := p.heightWork.getD d.heightWork,
          multipleServices := p.multipleServices.getD d.multipleServices,
          urgent := p.urgent.getD d.urgent }) ∧
    (∀ d : Modifiers, mergeModifiers d Option.none = d) ∧
    (∀ (d : MultiServiceDiscount) (p : PartialMultiServiceDiscount),
      mergeMultiServiceDiscount d (some p) =
        { threshold := p.threshold.getD d.threshold,
          discount := p.discount.getD d.discount }) ∧
    (∀ d : MultiServiceDiscount, mergeMultiServiceDiscount d Option.none = d) ∧
    (∀ (d : QualificationThresholds) (p : PartialQualificationThresholds),
      mergeQualificationThresholds d (some p) =
        { hot := p.hot.getD d.hot, warm := p.warm.getD d.warm,
          cold := p.cold.getD d.cold }) ∧
    (∀ d : QualificationThresholds,
      mergeQualificationThresholds d Option.none = d) ∧
    (∀ (d : ConversionFactors) (p : PartialConversionFactors),
      mergeConversionFactors d (some p) =
        { hotLead := p.hotLead.getD d.hotLead,
          warmLead := p.warmLead.getD d.warmLead,
          coldLead := p.coldLead.getD d.coldLead,
          unqualified := p.unqualified.getD d.unqualified }) ∧
    (∀ d : ConversionFactors, mergeConversionFactors d Option.none = d) ∧
    (∀ (d : LeadScoring) (p : PartialLeadScoring),
      mergeLeadScoring d (some p) =
        { baseScore := p.baseScore.getD d.baseScore,
          veryHighValueThreshold :=
            p.veryHighValueThreshold.getD d.veryHighValueThreshold,
          veryHighValueBonus :=
            p.veryHighValueBonus.getD d.veryHighValueBonus,
          highValueThreshold :=
            p.highValueThreshold.getD d.highValueThreshold,
          highValueBonus := p.highValueBonus.getD d.highValueBonus,
          manyServicesBonus := p.manyServicesBonus.getD d.manyServicesBonus,
          multipleServicesBonus :=
            p.multipleServicesBonus.getD d.multipleServicesBonus,
          remindersOptIn := p.remindersOptIn.getD d.remindersOptIn,
          phonePreferred := p.phonePreferred.getD d.phonePreferred,
          emailPreferred := p.emailPreferred.getD d.emailPreferred,
          commercialProperty :=
            p.commercialProperty.getD d.commercialProperty,
          urgentLanguage := p.urgentLanguage.getD d.urgentLanguage }) ∧
    (∀ d : LeadScoring, mergeLeadScoring d Option.none = d) :=
  ⟨fun _ _ _ _ => rfl, fun _ _ => rfl, fun _ _ => rfl, fun _ => rfl,
   fun _ _ => rfl, fun _ => rfl, fun _ _ => rfl, fun _ => rfl,
   fun _ _ => rfl, fun _ => rfl, fun _ _ => rfl, fun _ => rfl⟩

/-- Claim C10: when the upsert fails, `savePricingConfig` rethrows the error
with the module state untouched (cache and timestamp unchanged), so a
fresh cache keeps serving the previously cached configuration; only a
successful save clears the cache. -/
theorem save_failure_preserves_cache (fd : PricingConfig)
    (c : PartialConfig) (st : ConfigState) (e : JsError) (now : ℤ)
    (cc : PricingConfig) (hcache : st.cachedConfig = some cc)
    (hfresh : now - st.cacheTimestamp < CACHE_TTL) :
    (savePricingConfig true (some e) c st).1 = Except.error e ∧
    (savePricingConfig true (some e) c st).2 = st ∧
    (∀ read : ReadOutcome,
      getPricingConfig fd true now read
        (savePricingConfig true (some e) c st).2 = (cc, st)) ∧
    (savePricingConfig true Option.none c st).2.cachedConfig =
      Option.none := by
  refine ⟨rfl, rfl, fun read => ?_, rfl⟩
  show getPricingConfig fd true now read st = (cc, st)
  simp [getPricingConfig, hcache, hfresh]

/-- Witness for C10 at a concrete state with a warm, fresh cache. -/
theorem save_failure_preserves_cache_witness :
    ((⟨Option.none, some fileDefaults, 0⟩ : ConfigState).cachedConfig =
        some fileDefaults ∧
      (0 : ℤ) - (0 : ℤ) < CACHE_TTL) ∧
    getPricingConfig fileDefaults true 0 ReadOutcome.ok
      (savePricingConfig true (some { message := "boom" }) overrideRoofOnly
        ⟨Option.none, some fileDefaults, 0⟩).2 =
      (fileDefaults, ⟨Option.none, some fileDefaults, 0⟩) :=
  ⟨⟨rfl, by decide⟩,
   (save_failure_preserves_cache fileDefaults overrideRoofOnly
      ⟨Option.none, some fileDefaults, 0⟩ { message := "boom" } 0
      fileDefaults rfl (by decide)).2.2.1 ReadOutcome.ok⟩

/-- A submission requesting a single known service, with no answers. -/
def quoteOneRoof : Quote :=
  { services := some ["roof"], answers := Option.none,
    remindersOk := Option.none, preferredContact := Option.none }

/-- A submission requesting two known services, with no answers. -/
def quoteTwoServices : Quote :=
  { services := some ["roof", "gutter"], answers := Option.none,
    remindersOk := Option.none, preferredContact := Option.none }

/-- A submission requesting three known services, with no answers. -/
def quoteThreeServices : Quote :=
  { services := some ["roof", "gutter", "driveway"], answers := Option.none,
    remindersOk := Option.none, preferredContact := Option.none }

/-- The confidence component of the service fold: low as soon as any
requested service is missing from the pricing table, otherwise the
starting confidence. -/
theorem foldl_serviceStep_confidence (SP : List (String × ServicePricing))
    (ans : Option Answers) :
    ∀ (ss : List String) (acc : ℚ × ℚ × Confidence),
      (ss.foldl (serviceStep SP ans) acc).2.2 =
        if ss.any (fun s => (lookupSP s SP).isNone) then Confidence.low
        else acc.2.2
  | [], acc => by simp
  | s :: rest, acc => by
    rw [List.foldl_cons, foldl_serviceStep_confidence SP ans rest]
    cases h : lookupSP s SP with
    | none => simp [serviceStep, h]
    | some p => simp [serviceStep, h]

/-- Claim C2: for a submission with non-empty services, the final
confidence composes the sequential assignments of the source —
start at medium, low if any service is unknown, high if the
multi-service discount applies (overriding a low from unknown
services), and finally low whenever answers are absent or have fewer
than 5 keys, the sparse-answers clamp overriding the multi-service
upgrade. -/
theorem confidence_policy (cfg : PricingConfig) (quote : Quote)
    (ss : List String) (hs : quote.services = some ss) (hne : ss ≠ []) :
    (calculateEstimate cfg quote).confidence =
      if sparseAnswers quote.answers then Confidence.low
      else if (ss.length : ℚ) ≥ cfg.MULTI_SERVICE_DISCOUNT.threshold then
        Confidence.high
      else if ss.any (fun s => (lookupSP s cfg.SERVICE_PRICING).isNone) then
        Confidence.low
      else Confidence.medium := by
  obtain ⟨a, l, rfl⟩ : ∃ a l, ss = a :: l := by
    cases ss with
    | nil => exact absurd rfl hne
    | cons a l => exact ⟨a, l, rfl⟩
  simp only [calculateEstimate, hs, List.isEmpty_cons, Bool.false_eq_true,
    if_false, sparseClamp, applyDiscount, preDiscount, serviceFold]
  rw [foldl_serviceStep_confidence]
  split
  · rfl
  · split
    · rfl
    · rfl

/-- Witness for C2 at a concrete single-service submission. -/
theorem confidence_policy_witness :
    (calculateEstimate fileDefaults quoteOneRoof).confidence =
      if sparseAnswers quoteOneRoof.answers then Confidence.low
      else if ((["roof"].length : ℚ) ≥
          fileDefaults.MULTI_SERVICE_DISCOUNT.threshold) then
        Confidence.high
      else if ["roof"].any
          (fun s => (lookupSP s fileDefaults.SERVICE_PRICING).isNone) then
        Confidence.low
      else Confidence.medium :=
  confidence_policy fileDefaults quoteOneRoof ["roof"] rfl
    (List.cons_ne_nil _ _)

/-- Claim C6: the multi-service step multiplies both running totals by the
discount and sets confidence to high exactly when the number of
requested services reaches the threshold; at `threshold - 1` services
the step is the identity, and the estimate reflects this at both
boundary values. -/
theorem multi_service_discount_boundary (cfg : PricingConfig)
    (quote : Quote) (ss : List String) (t : ℕ)
    (hs : quote.services = some ss) (hne : ss ≠ [])
    (ht : cfg.MULTI_SERVICE_DISCOUNT.threshold = (t : ℚ)) (h1 : 1 ≤ t) :
    (∀ (n : ℕ) (acc : ℚ × ℚ × Confidence), t ≤ n →
      applyDiscount cfg.MULTI_SERVICE_DISCOUNT n acc =
        (acc.1 * cfg.MULTI_SERVICE_DISCOUNT.discount,
         acc.2.1 * cfg.MULTI_SERVICE_DISCOUNT.discount, Confidence.high)) ∧
    (∀ (n : ℕ) (acc : ℚ × ℚ × Confidence), n < t →
      applyDiscount cfg.MULTI_SERVICE_DISCOUNT n acc = acc) ∧
    (ss.length = t →
      calculateEstimate cfg quote =
        { min := some (round5 ((preDiscount cfg quote ss).1 *
            cfg.MULTI_SERVICE_DISCOUNT.discount)),
          max := some (round5 ((preDiscount cfg quote ss).2.1 *
            cfg.MULTI_SERVICE_DISCOUNT.discount)),
          version := ESTIMATION_VERSION,
          confidence := sparseClamp quote.answers Confidence.high }) ∧
    (ss.length = t - 1 →
      calculateEstimate cfg quote =
        { min := some (round5 (preDiscount cfg quote ss).1),
          max := some (round5 (preDiscount cfg quote ss).2.1),
          version := ESTIMATION_VERSION,
          confidence := sparseClamp quote.answers
            (preDiscount cfg quote ss).2.2 }) := by
  have hdisc : ∀ (n : ℕ) (acc : ℚ × ℚ × Confidence), t ≤ n →
      applyDiscount cfg.MULTI_SERVICE_DISCOUNT n acc =
        (acc.1 * cfg.MULTI_SERVICE_DISCOUNT.discount,
         acc.2.1 * cfg.MULTI_SERVICE_DISCOUNT.discount, Confidence.high) := by
    intro n acc h
    have hc : ((t : ℚ) ≤ (n : ℚ)) := by exact_mod_cast h
    simp [applyDiscount, ht, ge_iff_le, hc]
  have hno : ∀ (n : ℕ) (acc : ℚ × ℚ × Confidence), n < t →
      applyDiscount cfg.MULTI_SERVICE_DISCOUNT n acc = acc := by
    intro n acc h
    have hc : ¬((t : ℚ) ≤ (n : ℚ)) := by exact_mod_cast Nat.not_le.mpr h
    simp [applyDiscount, ht, ge_iff_le, hc]
  obtain ⟨a, l, rfl⟩ : ∃ a l, ss = a :: l := by
    cases ss with
    | nil => exact absurd rfl hne
    | cons a l => exact ⟨a, l, rfl⟩
  refine ⟨hdisc, hno, fun hlen => ?_, fun hlen => ?_⟩
  · simp only [calculateEstimate, hs, List.isEmpty_cons, Bool.false_eq_true,
      if_false]
    rw [hdisc _ _ (le_of_eq hlen.symm)]
  · have hlt : (a :: l).length < t := by omega
    simp only [calculateEstimate, hs, List.isEmpty_cons, Bool.false_eq_true,
      if_false]
    rw [hno _ _ hlt]

/-- Witness for C6 at both boundaries of the compiled-in defaults,
whose threshold is 3: with exactly 3 services the discount and the
upgrade apply; with exactly 2 (= threshold - 1) neither does. -/
theorem multi_service_discount_boundary_witness :
    (calculateEstimate fileDefaults quoteThreeServices =
      { min := some (round5
          ((preDiscount fileDefaults quoteThreeServices
            ["roof", "gutter", "driveway"]).1 *
            fileDefaults.MULTI_SERVICE_DISCOUNT.discount)),
        max := some (round5
          ((preDiscount fileDefaults quoteThreeServices
            ["roof", "gutter", "driveway"]).2.1 *
            fileDefaults.MULTI_SERVICE_DISCOUNT.discount)),
        version := ESTIMATION_VERSION,
        confidence := sparseClamp quoteThreeServices.answers
          Confidence.high }) ∧
    (calculateEstimate fileDefaults quoteTwoServices =
      { min := some (round5
          (preDiscount fileDefaults quoteTwoServices
            ["roof", "gutter"]).1),
        max := some (round5
          (preDiscount fileDefaults quoteTwoServices
            ["roof", "gutter"]).2.1),
        version := ESTIMATION_VERSION,
        confidence := sparseClamp quoteTwoServices.answers
          (preDiscount fileDefaults quoteTwoServices
            ["roof", "gutter"]).2.2 }) :=
  ⟨(multi_service_discount_boundary fileDefaults quoteThreeServices
      ["roof", "gutter", "driveway"] 3 rfl (List.cons_ne_nil _ _) (by decide)
      (by norm_num)).2.2.1 rfl,
   (multi_service_discount_boundary fileDefaults quoteTwoServices
      ["roof", "gutter"] 3 rfl (List.cons_ne_nil _ _) (by decide)
      (by norm_num)).2.2.2 rfl⟩

/-! ## Rounding helpers -/

theorem jsRound_intCast (k : ℤ) : jsRound ((k : ℚ)) = k := by
  unfold jsRound
  rw [Int.floor_int_add]
  norm_num

theorem jsRound_mono {a b : ℚ} (hle : a ≤ b) : jsRound a ≤ jsRound b :=
  Int.floor_le_floor (by linarith)

theorem intCast_min_q (a b : ℤ) :
    (((min a b : ℤ)) : ℚ) = min ((a : ℚ)) ((b : ℚ)) := by
  rcases le_total a b with hab | hab
  · rw [min_eq_left hab, min_eq_left (by exact_mod_cast hab)]
  · rw [min_eq_right hab, min_eq_right (by exact_mod_cast hab)]

/-! ## Scorer bonus-component lemmas -/

theorem financialBonus_bounds (LS : LeadScoring) (est : Option Estimate)
    (h1 : 0 ≤ LS.veryHighValueBonus) (h2 : 0 ≤ LS.highValueBonus) :
    0 ≤ (financialBonus LS est).1 ∧
    ((financialBonus LS est).2 = [] → (financialBonus LS est).1 = 0) := by
  unfold financialBonus
  split
  · simp
  · split
    · simp
    · split
      · split
        · exact ⟨by simpa using h1, by intro hc; simp at hc⟩
        · split
          · exact ⟨by simpa using h2, by intro hc; simp at hc⟩
          · simp
      · simp

theorem serviceCountBonus_bounds (LS : LeadScoring)
    (services : Option (List String))
    (h1 : 0 ≤ LS.manyServicesBonus) (h2 : 0 ≤ LS.multipleServicesBonus) :
    0 ≤ (serviceCountBonus LS services).1 ∧
    ((serviceCountBonus LS services).2 = [] →
      (serviceCountBonus LS services).1 = 0) := by
  unfold serviceCountBonus
  split
  · simp
  · split
    · split
      · exact ⟨by simpa using h1, by intro hc; simp at hc⟩
      · split
        · exact ⟨by simpa using h2, by intro hc; simp at hc⟩
        · simp
    · simp

theorem remindersBonus_bounds (LS : LeadScoring) (ro : Option Bool)
    (h1 : 0 ≤ LS.remindersOptIn) :
    0 ≤ (remindersBonus LS ro).1 ∧
    ((remindersBonus LS ro).2 = [] → (remindersBonus LS ro).1 = 0) := by
  unfold remindersBonus
  split
  · exact ⟨by simpa using h1, by intro hc; simp at hc⟩
  · simp

theorem contactBonus_bounds (LS : LeadScoring) (pc : Option String)
    (h1 : 0 ≤ LS.phonePreferred) (h2 : 0 ≤ LS.emailPreferred) :
    0 ≤ (contactBonus LS pc).1 ∧
    ((contactBonus LS pc).2 = [] → (contactBonus LS pc).1 = 0) := by
  unfold contactBonus
  split
  · simp
  · dsimp only
    split
    · exact ⟨by simpa using h1, by intro hc; simp at hc⟩
    · split
      · exact ⟨by simpa using h2, by intro hc; simp at hc⟩
      · simp

theorem propertyBonus_bounds (LS : LeadScoring) (ans : Option Answers)
    (h1 : 0 ≤ LS.commercialProperty) :
    0 ≤ (propertyBonus LS ans).1 ∧
    ((propertyBonus LS ans).2 = [] → (propertyBonus LS ans).1 = 0) := by
  unfold propertyBonus
  split
  · simp
  · split
    · simp
    · dsimp only
      split
      · exact ⟨by simpa using h1, by intro hc; simp at hc⟩
      · simp

theorem urgencyBonus_bounds (LS : LeadScoring) (ans : Option Answers)
    (h1 : 0 ≤ LS.urgentLanguage) :
    0 ≤ (urgencyBonus LS ans).1 ∧
    ((urgencyBonus LS ans).2 = [] → (urgencyBonus LS ans).1 = 0) := by
  unfold urgencyBonus
  split
  · simp
  · dsimp only
    split
    · exact ⟨by simpa using h1, by intro hc; simp at hc⟩
    · simp

/-- The accumulated score is at least the base score when all bonus
weights are non-negative, and equals the base score exactly when no
reason (hence no bonus) fired. -/
theorem scoreSignals_base_le (LS : LeadScoring) (quote : Quote)
    (est : Option Estimate)
    (h1 : 0 ≤ LS.veryHighValueBonus) (h2 : 0 ≤ LS.highValueBonus)
    (h3 : 0 ≤ LS.manyServicesBonus) (h4 : 0 ≤ LS.multipleServicesBonus)
    (h5 : 0 ≤ LS.remindersOptIn) (h6 : 0 ≤ LS.phonePreferred)
    (h7 : 0 ≤ LS.emailPreferred) (h8 : 0 ≤ LS.commercialProperty)
    (h9 : 0 ≤ LS.urgentLanguage) :
    LS.baseScore ≤ (scoreSignals LS quote est).1 ∧
    ((scoreSignals LS quote est).2 = [] →
      (scoreSignals LS quote est).1 = LS.baseScore) := by
  obtain ⟨f1, f2⟩ := financialBonus_bounds LS est h1 h2
  obtain ⟨s1, s2⟩ := serviceCountBonus_bounds LS quote.services h3 h4
  obtain ⟨r1, r2⟩ := remindersBonus_bounds LS quote.remindersOk h5
  obtain ⟨c1, c2⟩ := contactBonus_bounds LS quote.preferredContact h6 h7
  obtain ⟨p1, p2⟩ := propertyBonus_bounds LS quote.answers h8
  obtain ⟨u1, u2⟩ := urgencyBonus_bounds LS quote.answers h9
  constructor
  · show LS.baseScore ≤ LS.baseScore + _ + _ + _ + _ + _ + _
    linarith
  · intro h
    have hsplit : (financialBonus LS est).2 = [] ∧
        (serviceCountBonus LS quote.services).2 = [] ∧
        (remindersBonus LS quote.remindersOk).2 = [] ∧
        (contactBonus LS quote.preferredContact).2 = [] ∧
        (propertyBonus LS quote.answers).2 = [] ∧
        (urgencyBonus LS quote.answers).2 = [] := by
      have h0 : (scoreSignals LS quote est).2 =
          (financialBonus LS est).2 ++
          (serviceCountBonus LS quote.services).2 ++
          (remindersBonus LS quote.remindersOk).2 ++
          (contactBonus LS quote.preferredContact).2 ++
          (propertyBonus LS quote.answers).2 ++
          (urgencyBonus LS quote.answers).2 := rfl
      rw [h0] at h
      simpa [List.append_eq_nil] using h
    show LS.baseScore + _ + _ + _ + _ + _ + _ = LS.baseScore
    rw [f2 hsplit.1, s2 hsplit.2.1, r2 hsplit.2.2.1, c2 hsplit.2.2.2.1,
      p2 hsplit.2.2.2.2.1, u2 hsplit.2.2.2.2.2]
    ring

/-! ## C5 -/

/-- A configuration whose base score is the float-exact fraction 30.25
(= 121/4) and whose bonus weights are all zero. -/
def cfgQuarter : PricingConfig :=
  { fileDefaults with
    LEAD_SCORING :=
      { baseScore := 121/4, veryHighValueThreshold := 1000,
        veryHighValueBonus := 0, highValueThreshold := 500,
        highValueBonus := 0, manyServicesBonus := 0,
        multipleServicesBonus := 0, remindersOptIn := 0,
        phonePreferred := 0, emailPreferred := 0,
        commercialProperty := 0, urgentLanguage := 0 } }

/-- Claim C5 (counterexample): with the valid configuration `cfgQuarter`
(positive base score ≤ 100, non-negative bonus weights) and a
submission firing no bonus, the returned score 30 = round(30.25) lies
strictly below the base score, so the claimed interval
`[baseScore, 100]` and the equality `score = baseScore` both fail. -/
theorem fractional_base_score_escapes_range :
    (0 < cfgQuarter.LEAD_SCORING.baseScore ∧
      cfgQuarter.LEAD_SCORING.baseScore ≤ 100 ∧
      0 ≤ cfgQuarter.LEAD_SCORING.veryHighValueBonus ∧
      0 ≤ cfgQuarter.LEAD_SCORING.highValueBonus ∧
      0 ≤ cfgQuarter.LEAD_SCORING.manyServicesBonus ∧
      0 ≤ cfgQuarter.LEAD_SCORING.multipleServicesBonus ∧
      0 ≤ cfgQuarter.LEAD_SCORING.remindersOptIn ∧
      0 ≤ cfgQuarter.LEAD_SCORING.phonePreferred ∧
      0 ≤ cfgQuarter.LEAD_SCORING.emailPreferred ∧
      0 ≤ cfgQuarter.LEAD_SCORING.commercialProperty ∧
      0 ≤ cfgQuarter.LEAD_SCORING.urgentLanguage) ∧
    (calculateLeadScore cfgQuarter quoteTrivial Option.none).reasons = [] ∧
    (calculateLeadScore cfgQuarter quoteTrivial Option.none).score = 30 ∧
    ¬(cfgQuarter.LEAD_SCORING.baseScore ≤
      ((calculateLeadScore cfgQuarter quoteTrivial Option.none).score : ℚ)) := by
  have hr : (scoreSignals cfgQuarter.LEAD_SCORING quoteTrivial
      Option.none).1 = 121/4 := by
    show (121/4 : ℚ) + 0 + 0 + 0 + 0 + 0 + 0 = 121/4
    norm_num
  have hsc : (calculateLeadScore cfgQuarter quoteTrivial Option.none).score =
      30 := by
    show jsRound (min (scoreSignals cfgQuarter.LEAD_SCORING quoteTrivial
      Option.none).1 100) = 30
    rw [hr, min_eq_left (by norm_num)]
    unfold jsRound
    norm_num
  have hb : cfgQuarter.LEAD_SCORING.baseScore = 121/4 := rfl
  refine ⟨?_, rfl, hsc, ?_⟩
  · refine ⟨?_, ?_, ?_, ?_, ?_, ?_, ?_, ?_, ?_, ?_, ?_⟩ <;>
      first
        | (rw [hb]; norm_num)
        | (show (0 : ℚ) ≤ 0; norm_num)
  · rw [hsc, hb]
    norm_num

/-- Claim C5 (amended): with non-negative bonus weights and
`0 < baseScore ≤ 100`, the returned (rounded) score lies in
`[round(baseScore), 100]`; it equals `round(baseScore)` when no bonus
fired (empty reasons) and 100 when the accumulated score reaches 100;
for an integer base score the bounds specialise to `[baseScore, 100]`
with equality at `baseScore`, as originally claimed. -/
theorem score_range_clamped (cfg : PricingConfig) (quote : Quote)
    (est : Option Estimate)
    (hb0 : 0 < cfg.LEAD_SCORING.baseScore)
    (hb100 : cfg.LEAD_SCORING.baseScore ≤ 100)
    (h1 : 0 ≤ cfg.LEAD_SCORING.veryHighValueBonus)
    (h2 : 0 ≤ cfg.LEAD_SCORING.highValueBonus)
    (h3 : 0 ≤ cfg.LEAD_SCORING.manyServicesBonus)
    (h4 : 0 ≤ cfg.LEAD_SCORING.multipleServicesBonus)
    (h5 : 0 ≤ cfg.LEAD_SCORING.remindersOptIn)
    (h6 : 0 ≤ cfg.LEAD_SCORING.phonePreferred)
    (h7 : 0 ≤ cfg.LEAD_SCORING.emailPreferred)
    (h8 : 0 ≤ cfg.LEAD_SCORING.commercialProperty)
    (h9 : 0 ≤ cfg.LEAD_SCORING.urgentLanguage) :
    (jsRound cfg.LEAD_SCORING.baseScore ≤
        (calculateLeadScore cfg quote est).score ∧
      (calculateLeadScore cfg quote est).score ≤ 100) ∧
    ((calculateLeadScore cfg quote est).reasons = [] →
      (calculateLeadScore cfg quote est).score =
        jsRound cfg.LEAD_SCORING.baseScore) ∧
    (100 ≤ (scoreSignals cfg.LEAD_SCORING quote est).1 →
      (calculateLeadScore cfg quote est).score = 100) ∧
    (∀ b : ℤ, cfg.LEAD_SCORING.baseScore = (b : ℚ) →
      (b ≤ (calculateLeadScore cfg quote est).score ∧
       ((calculateLeadScore cfg quote est).reasons = [] →
         (calculateLeadScore cfg quote est).score = b))) := by
  obtain ⟨hle, hnil⟩ :=
    scoreSignals_base_le cfg.LEAD_SCORING quote est h1 h2 h3 h4 h5 h6 h7 h8 h9
  have hscore : (calculateLeadScore cfg quote est).score =
      jsRound (min (scoreSignals cfg.LEAD_SCORING quote est).1 100) := rfl
  have hreasons : (calculateLeadScore cfg quote est).reasons =
      (scoreSignals cfg.LEAD_SCORING quote est).2 := rfl
  have h100 : jsRound ((100 : ℚ)) = 100 := by
    have : ((100 : ℤ) : ℚ) = (100 : ℚ) := by norm_num
    rw [← this, jsRound_intCast]
  have hlower : jsRound cfg.LEAD_SCORING.baseScore ≤
      (calculateLeadScore cfg quote est).score := by
    rw [hscore]
    exact jsRound_mono (le_min hle hb100)
  have hupper : (calculateLeadScore cfg quote est).score ≤ 100 := by
    rw [hscore]
    calc jsRound (min (scoreSignals cfg.LEAD_SCORING quote est).1 100) ≤
        jsRound ((100 : ℚ)) := jsRound_mono (min_le_right _ _)
      _ = 100 := h100
  have hempty : (calculateLeadScore cfg quote est).reasons = [] →
      (calculateLeadScore cfg quote est).score =
        jsRound cfg.LEAD_SCORING.baseScore := by
    intro h
    rw [hscore, hnil (by rw [← hreasons]; exact h), min_eq_left hb100]
  refine ⟨⟨hlower, hupper⟩, hempty, ?_, ?_⟩
  · intro hbig
    rw [hscore, min_eq_right hbig, h100]
  · intro b hb
    constructor
    · have := hlower
      rwa [hb, jsRound_intCast] at this
    · intro h
      rw [hempty h, hb, jsRound_intCast]

/-- Witness for C5 (amended) at the compiled-in defaults (an integer
configuration) and an empty submission. -/
theorem score_range_clamped_witness :
    jsRound fileDefaults.LEAD_SCORING.baseScore ≤
      (calculateLeadScore fileDefaults quoteTrivial Option.none).score ∧
    (calculateLeadScore fileDefaults quoteTrivial Option.none).score
      ≤ 100 :=
  (score_range_clamped fileDefaults quoteTrivial Option.none
    (by show (0 : ℚ) < 50; norm_num) (by show (50 : ℚ) ≤ 100; norm_num)
    (by show (0 : ℚ) ≤ 30; norm_num) (by show (0 : ℚ) ≤ 20; norm_num)
    (by show (0 : ℚ) ≤ 25; norm_num) (by show (0 : ℚ) ≤ 15; norm_num)
    (by show (0 : ℚ) ≤ 10; norm_num) (by show (0 : ℚ) ≤ 10; norm_num)
    (by show (0 : ℚ) ≤ 5; norm_num) (by show (0 : ℚ) ≤ 15; norm_num)
    (by show (0 : ℚ) ≤ 10; norm_num)).1

/-! ## C3 -/

/-- A configuration whose accumulated score is the float-exact fraction
69.5 (= 139/2), with integer thresholds hot = 70, warm = 60. -/
def cfgScoreHalf : PricingConfig :=
  { fileDefaults with
    LEAD_SCORING :=
      { baseScore := 139/2, veryHighValueThreshold := 1000,
        veryHighValueBonus := 0, highValueThreshold := 500,
        highValueBonus := 0, manyServicesBonus := 0,
        multipleServicesBonus := 0, remindersOptIn := 0,
        phonePreferred := 0, emailPreferred := 0,
        commercialProperty := 0, urgentLanguage := 0 },
    QUALIFICATION_THRESHOLDS := { hot := 70, warm := 60, cold := 40 } }

/-- Claim C3 (counterexample): with `cfgScoreHalf` the accumulated score is
69.5, the returned rounded score is 70 — exactly
`qualificationThresholds.hot` — yet the assigned tier is `"warm"`,
because the source classifies the unrounded score; so the tier is not
derived from the rounded score as claimed. -/
theorem classification_ignores_rounding :
    ((calculateLeadScore cfgScoreHalf quoteTrivial Option.none).score : ℚ) =
      cfgScoreHalf.QUALIFICATION_THRESHOLDS.hot ∧
    (calculateLeadScore cfgScoreHalf quoteTrivial Option.none).qualification =
      "warm" ∧
    (calculateLeadScore cfgScoreHalf quoteTrivial Option.none).qualification ≠
      "hot" := by
  have hr : (scoreSignals cfgScoreHalf.LEAD_SCORING quoteTrivial
      Option.none).1 = 139/2 := by
    show (139/2 : ℚ) + 0 + 0 + 0 + 0 + 0 + 0 = 139/2
    norm_num
  have hhot : cfgScoreHalf.QUALIFICATION_THRESHOLDS.hot = 70 := rfl
  have hwarm : cfgScoreHalf.QUALIFICATION_THRESHOLDS.warm = 60 := rfl
  have hsc : (calculateLeadScore cfgScoreHalf quoteTrivial Option.none).score =
      70 := by
    show jsRound (min (scoreSignals cfgScoreHalf.LEAD_SCORING quoteTrivial
      Option.none).1 100) = 70
    rw [hr, min_eq_left (by norm_num)]
    unfold jsRound
    norm_num
  have hq : (calculateLeadScore cfgScoreHalf quoteTrivial
      Option.none).qualification = "warm" := by
    show (classify cfgScoreHalf.QUALIFICATION_THRESHOLDS
      cfgScoreHalf.CONVERSION_FACTORS
      (min (scoreSignals cfgScoreHalf.LEAD_SCORING quoteTrivial
        Option.none).1 100)).1 = "warm"
    rw [hr, min_eq_left (by norm_num)]
    unfold classify
    rw [if_neg (by rw [ge_iff_le, not_le, hhot]; norm_num),
      if_pos (by rw [ge_iff_le, hwarm]; norm_num)]
  refine ⟨?_, hq, by rw [hq]; decide⟩
  rw [hsc, hhot]
  norm_num

/-- Claim C3 (amended): the tier is assigned by comparing the clamped,
pre-rounding score against the thresholds in descending order with `≥`,
first match winning; whenever the accumulated score and the hot/warm
thresholds are integers (so rounding is the identity), the returned
score determines the tier: a returned score exactly `hot` yields
`"hot"`, and `hot - 1` yields `"warm"` given `warm < hot`. -/
theorem scorer_tier_thresholds (cfg : PricingConfig) (quote : Quote)
    (est : Option Estimate) (n h w : ℤ)
    (hraw : (scoreSignals cfg.LEAD_SCORING quote est).1 = (n : ℚ))
    (hhot : cfg.QUALIFICATION_THRESHOLDS.hot = (h : ℚ))
    (hwarm : cfg.QUALIFICATION_THRESHOLDS.warm = (w : ℚ))
    (hlt : cfg.QUALIFICATION_THRESHOLDS.warm <
      cfg.QUALIFICATION_THRESHOLDS.hot) :
    ((calculateLeadScore cfg quote est).score : ℚ) = min ((n : ℚ)) 100 ∧
    ((calculateLeadScore cfg quote est).qualification,
      (calculateLeadScore cfg quote est).conversionLikelihood) =
      classify cfg.QUALIFICATION_THRESHOLDS cfg.CONVERSION_FACTORS
        (((calculateLeadScore cfg quote est).score : ℚ)) ∧
    (((calculateLeadScore cfg quote est).score : ℚ) =
        cfg.QUALIFICATION_THRESHOLDS.hot →
      (calculateLeadScore cfg quote est).qualification = "hot") ∧
    (((calculateLeadScore cfg quote est).score : ℚ) =
        cfg.QUALIFICATION_THRESHOLDS.hot - 1 →
      (calculateLeadScore cfg quote est).qualification = "warm") := by
  have hmin : min (scoreSignals cfg.LEAD_SCORING quote est).1 100 =
      ((min n 100 : ℤ) : ℚ) := by
    rw [hraw, intCast_min_q]
    norm_num
  have hscore : (calculateLeadScore cfg quote est).score = min n 100 := by
    show jsRound (min (scoreSignals cfg.LEAD_SCORING quote est).1 100) =
      min n 100
    rw [hmin, jsRound_intCast]
  have hcast : ((calculateLeadScore cfg quote est).score : ℚ) =
      min (scoreSignals cfg.LEAD_SCORING quote est).1 100 := by
    rw [hscore, hmin]
  have hpair : ((calculateLeadScore cfg quote est).qualification,
      (calculateLeadScore cfg quote est).conversionLikelihood) =
      classify cfg.QUALIFICATION_THRESHOLDS cfg.CONVERSION_FACTORS
        (min (scoreSignals cfg.LEAD_SCORING quote est).1 100) := rfl
  have hqual : (calculateLeadScore cfg quote est).qualification =
      (classify cfg.QUALIFICATION_THRESHOLDS cfg.CONVERSION_FACTORS
        (((calculateLeadScore cfg quote est).score : ℚ))).1 := by
    rw [hcast]
    exact congrArg Prod.fst hpair
  refine ⟨by rw [hcast, hraw], by rw [hcast]; exact hpair, ?_, ?_⟩
  · intro hh
    rw [hqual, hh]
    unfold classify
    rw [if_pos (ge_iff_le.mpr (le_refl _))]
  · intro hh
    have hwz : w < h := by
      rw [hhot, hwarm] at hlt
      exact_mod_cast hlt
    have hwh : cfg.QUALIFICATION_THRESHOLDS.warm ≤
        cfg.QUALIFICATION_THRESHOLDS.hot - 1 := by
      rw [hhot, hwarm]
      have hq : ((w : ℚ)) + 1 ≤ (h : ℚ) := by exact_mod_cast hwz
      linarith
    rw [hqual, hh]
    unfold classify
    rw [if_neg (by rw [ge_iff_le, not_le]; linarith),
      if_pos (ge_iff_le.mpr hwh)]

/-- Witness for C3 (amended) at the compiled-in defaults, whose scoring
values are integers (base score 50, hot 75, warm 50). -/
theorem scorer_tier_thresholds_witness :
    ((calculateLeadScore fileDefaults quoteTrivial Option.none).score :
        ℚ) = min (((50 : ℤ) : ℚ)) 100 ∧
    ((calculateLeadScore fileDefaults quoteTrivial Option.none).qualification,
      (calculateLeadScore fileDefaults quoteTrivial
        Option.none).conversionLikelihood) =
      classify fileDefaults.QUALIFICATION_THRESHOLDS
        fileDefaults.CONVERSION_FACTORS
        (((calculateLeadScore fileDefaults quoteTrivial
          Option.none).score : ℚ)) := by
  have := scorer_tier_thresholds fileDefaults quoteTrivial Option.none
    50 75 50
    (by show (50 : ℚ) + 0 + 0 + 0 + 0 + 0 + 0 = ((50 : ℤ) : ℚ); norm_num)
    (by show (75 : ℚ) = ((75 : ℤ) : ℚ); norm_num)
    (by show (50 : ℚ) = ((50 : ℤ) : ℚ); norm_num)
    (by show (50 : ℚ) < (75 : ℚ); norm_num)
  exact ⟨this.1, this.2.1⟩

/-! ## C7 -/

/-- A well-formed `[min, max]` pair: non-negative and ordered. -/
def pairOk (p : ℚ × ℚ) : Prop := 0 ≤ p.1 ∧ p.1 ≤ p.2

/-- A well-formed per-service pricing table: the default pair and every
present size pair are well-formed. -/
def pricingOk (sp : ServicePricing) : Prop :=
  pairOk sp.default ∧ (∀ r ∈ sp.small, pairOk r) ∧
  (∀ r ∈ sp.medium, pairOk r) ∧ (∀ r ∈ sp.large, pairOk r)

theorem lookupSP_mem {s : String} {SP : List (String × ServicePricing)}
    {p : ServicePricing} (h : lookupSP s SP = some p) :
    ∃ q ∈ SP, q.2 = p := by
  unfold lookupSP at h
  cases hf : SP.find? (fun q => q.1 == s) with
  | none => rw [hf] at h; exact absurd h (by simp)
  | some q =>
    rw [hf] at h
    exact ⟨q, List.mem_of_find?_eq_some hf, by injection h⟩

theorem pricingOk_range {sp : ServicePricing} (h : pricingOk sp)
    (size : Size) : pairOk ((sp.sizeRange size).getD sp.default) := by
  obtain ⟨hd, hsm, hmd, hlg⟩ := h
  cases size with
  | small =>
    cases hv : sp.small with
    | none => simpa [ServicePricing.sizeRange, hv] using hd
    | some r =>
      simpa [ServicePricing.sizeRange, hv] using hsm r (by simp [hv])
  | medium =>
    cases hv : sp.medium with
    | none => simpa [ServicePricing.sizeRange, hv] using hd
    | some r =>
      simpa [ServicePricing.sizeRange, hv] using hmd r (by simp [hv])
  | large =>
    cases hv : sp.large with
    | none => simpa [ServicePricing.sizeRange, hv] using hd
    | some r =>
      simpa [ServicePricing.sizeRange, hv] using hlg r (by simp [hv])

/-- The service fold keeps the running minimum below the running
maximum when every pricing pair is well-formed (the generic 100–300
fallback included). -/
theorem foldl_serviceStep_le (SP : List (String × ServicePricing))
    (ans : Option Answers) (hval : ∀ p ∈ SP, pricingOk p.2) :
    ∀ (ss : List String) (acc : ℚ × ℚ × Confidence), acc.1 ≤ acc.2.1 →
      (ss.foldl (serviceStep SP ans) acc).1 ≤
        (ss.foldl (serviceStep SP ans) acc).2.1
  | [], acc, hacc => by simpa using hacc
  | s :: rest, acc, hacc => by
    rw [List.foldl_cons]
    refine foldl_serviceStep_le SP ans hval rest _ ?_
    unfold serviceStep
    cases hl : lookupSP s SP with
    | none => dsimp only; linarith
    | some pricing =>
      obtain ⟨q, hq, hq2⟩ := lookupSP_mem hl
      have hok := pricingOk_range (hq2 ▸ hval q hq) (determineSize s ans)
      dsimp only
      have h1 := hok.2
      linarith

theorem calculateModifiers_pos (quote : Quote) (M : Modifiers)
    (h1 : 0 < M.firstTimeCleaning) (h2 : 0 < M.heavilySoiled)
    (h3 : 0 < M.difficultAccess) (h4 : 0 < M.heightWork)
    (h5 : 0 < M.urgent) : 0 < (calculateModifiers quote M).1 := by
  unfold calculateModifiers
  split
  · norm_num
  · dsimp only
    refine mul_pos (mul_pos (mul_pos (mul_pos (mul_pos one_pos ?_) ?_) ?_)
      ?_) ?_ <;> (split <;> first | assumption | norm_num)

theorem round5_mul_int (q : ℚ) : round5 q = ((jsRound (q / 5) : ℤ) : ℚ) * 5 :=
  rfl

theorem round5_mono {a b : ℚ} (hab : a ≤ b) : round5 a ≤ round5 b := by
  have h5 : a / 5 ≤ b / 5 := by linarith
  have hj := jsRound_mono h5
  have hc : ((jsRound (a / 5) : ℤ) : ℚ) ≤ ((jsRound (b / 5) : ℤ) : ℚ) := by
    exact_mod_cast hj
  unfold round5
  linarith

/-- Claim C7: for a submission with non-empty services and a valid
configuration (every pricing pair ordered and non-negative, all
modifier multipliers positive, discount in `(0, 1]`), the computed
estimate bounds are multiples of 5 with `min ≤ max` — rounding both totals to
the nearest multiple of 5 never inverts the ordering. -/
theorem estimate_bounds_ordered (cfg : PricingConfig) (quote : Quote)
    (ss : List String) (hs : quote.services = some ss) (hne : ss ≠ [])
    (hval : ∀ p ∈ cfg.SERVICE_PRICING, pricingOk p.2)
    (hm1 : 0 < cfg.MODIFIERS.firstTimeCleaning)
    (hm2 : 0 < cfg.MODIFIERS.heavilySoiled)
    (hm3 : 0 < cfg.MODIFIERS.difficultAccess)
    (hm4 : 0 < cfg.MODIFIERS.heightWork)
    (hm5 : 0 < cfg.MODIFIERS.urgent)
    (hd0 : 0 < cfg.MULTI_SERVICE_DISCOUNT.discount)
    (hd1 : cfg.MULTI_SERVICE_DISCOUNT.discount ≤ 1) :
    ∃ a b : ℤ,
      (calculateEstimate cfg quote).min = some (((a : ℚ)) * 5) ∧
      (calculateEstimate cfg quote).max = some (((b : ℚ)) * 5) ∧
      ((a : ℚ)) * 5 ≤ ((b : ℚ)) * 5 := by
  obtain ⟨sv, l, rfl⟩ : ∃ sv l, ss = sv :: l := by
    cases ss with
    | nil => exact absurd rfl hne
    | cons sv l => exact ⟨sv, l, rfl⟩
  have hcalc : calculateEstimate cfg quote =
      { min := some (round5 ((applyDiscount cfg.MULTI_SERVICE_DISCOUNT
          (sv :: l).length (preDiscount cfg quote (sv :: l))).1)),
        max := some (round5 ((applyDiscount cfg.MULTI_SERVICE_DISCOUNT
          (sv :: l).length (preDiscount cfg quote (sv :: l))).2.1)),
        version := ESTIMATION_VERSION,
        confidence := sparseClamp quote.answers
          ((applyDiscount cfg.MULTI_SERVICE_DISCOUNT (sv :: l).length
            (preDiscount cfg quote (sv :: l))).2.2) } := by
    simp only [calculateEstimate, hs, List.isEmpty_cons, Bool.false_eq_true,
      if_false]
  have hfold : (serviceFold cfg.SERVICE_PRICING quote.answers (sv :: l)).1 ≤
      (serviceFold cfg.SERVICE_PRICING quote.answers (sv :: l)).2.1 :=
    foldl_serviceStep_le cfg.SERVICE_PRICING quote.answers hval (sv :: l)
      (0, 0, Confidence.medium) (by norm_num)
  have hmult : 0 < (calculateModifiers quote cfg.MODIFIERS).1 :=
    calculateModifiers_pos quote cfg.MODIFIERS hm1 hm2 hm3 hm4 hm5
  have hpre : (preDiscount cfg quote (sv :: l)).1 ≤
      (preDiscount cfg quote (sv :: l)).2.1 := by
    unfold preDiscount
    dsimp only
    exact mul_le_mul_of_nonneg_right hfold (le_of_lt hmult)
  have hpost : (applyDiscount cfg.MULTI_SERVICE_DISCOUNT (sv :: l).length
      (preDiscount cfg quote (sv :: l))).1 ≤
      (applyDiscount cfg.MULTI_SERVICE_DISCOUNT (sv :: l).length
        (preDiscount cfg quote (sv :: l))).2.1 := by
    unfold applyDiscount
    split
    · dsimp only
      exact mul_le_mul_of_nonneg_right hpre (le_of_lt hd0)
    · exact hpre
  refine ⟨jsRound ((applyDiscount cfg.MULTI_SERVICE_DISCOUNT
      (sv :: l).length (preDiscount cfg quote (sv :: l))).1 / 5),
    jsRound ((applyDiscount cfg.MULTI_SERVICE_DISCOUNT
      (sv :: l).length (preDiscount cfg quote (sv :: l))).2.1 / 5),
    ?_, ?_, ?_⟩
  · rw [hcalc]
    rfl
  · rw [hcalc]
    rfl
  · exact round5_mono hpost

/-- Witness for C7 at the compiled-in defaults and a two-service
submission. -/
theorem estimate_bounds_ordered_witness :
    ∃ a b : ℤ,
      (calculateEstimate fileDefaults quoteTwoServices).min =
        some (((a : ℚ)) * 5) ∧
      (calculateEstimate fileDefaults quoteTwoServices).max =
        some (((b : ℚ)) * 5) ∧
      ((a : ℚ)) * 5 ≤ ((b : ℚ)) * 5 :=
  estimate_bounds_ordered fileDefaults quoteTwoServices
    ["roof", "gutter"] rfl (List.cons_ne_nil _ _)
    (by
      intro p hp
      fin_cases hp <;>
        exact ⟨⟨by norm_num, by norm_num⟩,
          fun r hr => by
            simp only [Option.mem_def, Option.some.injEq] at hr
            subst hr
            exact ⟨by norm_num, by norm_num⟩,
          fun r hr => by
            simp only [Option.mem_def, Option.some.injEq] at hr
            subst hr
            exact ⟨by norm_num, by norm_num⟩,
          fun r hr => by
            simp only [Option.mem_def, Option.some.injEq] at hr
            subst hr
            exact ⟨by norm_num, by norm_num⟩⟩)
    (by show (0 : ℚ) < 6/5; norm_num) (by show (0 : ℚ) < 23/20; norm_num)
    (by show (0 : ℚ) < 5/4; norm_num) (by show (0 : ℚ) < 13/10; norm_num)
    (by show (0 : ℚ) < 23/20; norm_num) (by show (0 : ℚ) < 9/10; norm_num)
    (by show (9/10 : ℚ) ≤ 1; norm_num)

end Revive
